import Mathlib

/-!
# DHT22 / SSD1306 monitor sketch: the polling loop of `src/main.cpp`

The sketch keeps one piece of state between iterations, the 8-bit global
`errorCount`.  Each call of `loop()` reads the sensor twice, and then talks to
three devices: the serial port, the OLED text page and the clock.  The
embedding below turns one call of `loop()` into a pure function from the two
sensor values and the old counter to the new counter and the ordered list of
library calls the body makes.
-/

namespace OledDht

/-! ## Configuration constants of the sketch -/

/-- Maximum consecutive errors before the display warning (`#define MAX_ERRORS 3`). -/
def MAX_ERRORS : Nat := 3

/-- Colour constant of the display driver; the driver header is not part of
the sketch, the value only travels through `setTextColor`. -/
def SSD1306_WHITE : Nat := 1

/-- Number of values of the `uint8_t` counter `errorCount`. -/
def UINT8_RANGE : Nat := 256

/-! ## Sensor values -/

/-- A C `float` as the sketch meets it: not-a-number, an infinity, or a finite
number.  Finite values are kept as exact rationals, which covers every finite
binary float. -/
inductive FloatVal where
  | nan
  | inf (negative : Bool)
  | num (q : ℚ)
deriving DecidableEq

/-- The C library test `isnan`. -/
def isnan : FloatVal → Bool
  | .nan => true
  | .inf _ => false
  | .num _ => false

/-! ## Library calls made by the sketch -/

/-- One call into the serial port, the display driver or the clock, with the
text it carries.  Numbers are already turned into text at this point. -/
inductive Effect where
  | serialPrint (s : String)
  | serialPrintln (s : String)
  | clearDisplay
  | setTextSize (n : Nat)
  | setTextColor (c : Nat)
  | setCursor (x y : Nat)
  | displayPrint (s : String)
  | displayPrintln (s : String)
  | displayDisplay
  | delay (ms : Nat)
deriving DecidableEq

/-- Result of one call of `loop()`: the value left in the global `errorCount`
and the calls made, in program order. -/
structure Outcome where
  errorCount : Nat
  effects : List Effect
deriving DecidableEq

/-- Text written by `print` for the `uint8_t` counter and for the integer
constant `MAX_ERRORS`: the decimal digits. -/
def printNat (n : Nat) : String := toString n

/-- The body of `loop()` in `src/main.cpp`.

`temp` and `hum` are the values returned by `dht.readTemperature()` and
`dht.readHumidity()`, `errorCount` is the global counter on entry, and
`printFloat` is the text the `Print` class of the board package writes for a
`float` argument (that class is not part of the sketch). -/
def loop (printFloat : FloatVal → String) (temp hum : FloatVal) (errorCount : Nat) : Outcome :=
  if isnan temp || isnan hum then
    -- errorCount++ on a uint8_t
    let errorCount := (errorCount + 1) % UINT8_RANGE
    { errorCount := errorCount
      effects :=
        [ .serialPrint "Sensor read failed (Error #",
          .serialPrint (printNat errorCount),
          .serialPrintln ")",
          .clearDisplay,
          .setTextSize 1,
          .setTextColor SSD1306_WHITE,
          .setCursor 0 0 ]
        ++ (if errorCount < MAX_ERRORS then
              [ .displayPrintln "Sensor Reading...",
                .displayPrintln "Please wait...",
                .displayPrintln "",
                .displayPrint "Retry: ",
                .displayPrint (printNat errorCount),
                .displayPrint "/",
                .displayPrintln (printNat MAX_ERRORS) ]
            else
              [ .displayPrintln "SENSOR ERROR!",
                .displayPrintln "",
                .displayPrintln "Check:",
                .displayPrintln "- GND connection",
                .displayPrintln "- VCC (3.3-5V)",
                .displayPrintln "- DATA pin (Pin 2)",
                .displayPrintln "- Pull-up resistor" ])
        ++ [ .displayDisplay,
             .delay 2000 ] }
  else
    { errorCount := if errorCount > 0 then 0 else errorCount
      effects :=
        (if errorCount > 0 then [ .serialPrintln "Sensor recovered!" ] else [])
        ++ [ .clearDisplay,
             .setTextSize 1,
             .setTextColor SSD1306_WHITE,
             .setCursor 0 0,
             .displayPrint "Temp: ",
             .displayPrint (printFloat temp),
             .displayPrintln " C",
             .displayPrint "Humidity: ",
             .displayPrint (printFloat hum),
             .displayPrintln " %",
             .displayPrintln "",
             .displayPrintln "Status: OK",
             .displayDisplay,
             .serialPrint "Temperature: ",
             .serialPrint (printFloat temp),
             .serialPrint " °C ",
             .serialPrint "Humidity: ",
             .serialPrint (printFloat hum),
             .serialPrintln " %",
             .delay 2000 ] }

/-- The Arduino runtime calling `loop()` once per sensor read, the counter
being carried from one call to the next. -/
def runLoops (printFloat : FloatVal → String) : List (FloatVal × FloatVal) → Nat → Outcome
  | [], errorCount => { errorCount := errorCount, effects := [] }
  | (temp, hum) :: rest, errorCount =>
    let first := loop printFloat temp hum errorCount
    let later := runLoops printFloat rest first.errorCount
    { errorCount := later.errorCount, effects := first.effects ++ later.effects }

/-! ## What an observer sees -/

/-- An observable output: a finished line on the serial port, the text page
pushed to the panel by `display.display()`, or a pause. -/
inductive Obs where
  | log (line : String)
  | render (lines : List String)
  | sleep (ms : Nat)
deriving DecidableEq

/-- The serial line being written, the text page being composed, and the
outputs so far. -/
structure Sink where
  serialLine : String
  rows : List String
  row : String
  out : List Obs

/-- Effect of one library call on the devices.  `print` extends the open line,
`println` closes it.  The sketch homes the cursor only right after clearing
the page, so both leave an empty page.  Text size and colour do not change the
characters.  Wrapping of rows longer than the panel is not modelled. -/
def Sink.step (s : Sink) : Effect → Sink
  | .serialPrint t => { s with serialLine := s.serialLine ++ t }
  | .serialPrintln t => { s with serialLine := "", out := s.out ++ [.log (s.serialLine ++ t)] }
  | .clearDisplay => { s with rows := [], row := "" }
  | .setTextSize _ => s
  | .setTextColor _ => s
  | .setCursor _ _ => { s with rows := [], row := "" }
  | .displayPrint t => { s with row := s.row ++ t }
  | .displayPrintln t => { s with rows := s.rows ++ [s.row ++ t], row := "" }
  | .displayDisplay =>
    { s with out := s.out ++ [.render (s.rows ++ (if s.row = "" then [] else [s.row]))] }
  | .delay ms => { s with out := s.out ++ [.sleep ms] }

/-- Devices at power-up: nothing written yet. -/
def Sink.init : Sink := { serialLine := "", rows := [], row := "", out := [] }

/-- The outputs produced by a list of library calls, in order. -/
def observe (es : List Effect) : List Obs :=
  (es.foldl Sink.step Sink.init).out

/-- Model of `Print::print(double, int digits = 2)` of the Arduino core, the
routine behind `display.print(temp)` and `Serial.print(temp)`; it lives in the
board package, outside the sketch.  It writes `nan`, `inf` or `ovf` for values
it does not write as digits, and otherwise the sign, the integer part, a dot
and `digits = 2` decimals after adding the rounding term 0.5 / 10 / 10.  The
number is the fraction `n / d` and the arithmetic is exact, where the core
computes in binary doubles: on a decimal tie such as 2.125 the core can write
the lower digit.  The values used below (21.5, 60, 22, 55) are no ties. -/
def printFloat : FloatVal → String
  | .nan => "nan"
  | .inf _ => "inf"
  | .num q =>
    let n := q.num.natAbs
    let d := q.den
    if 4294967040 * d < n then "ovf"
    else
      let sign := if q.num < 0 then "-" else ""
      -- number += rounding
      let n1 := 200 * n + d
      let d1 := 200 * d
      -- int_part = (unsigned long) number; remainder = number - int_part
      let int_part := n1 / d1
      let r0 := n1 % d1
      -- first pass of the digit loop
      let digit1 := 10 * r0 / d1
      let r1 := 10 * r0 % d1
      -- second pass of the digit loop
      let digit2 := 10 * r1 / d1
      sign ++ printNat int_part ++ "." ++ printNat digit1 ++ printNat digit2

/-- A read is a failure when either value is NaN. -/
def failed (r : FloatVal × FloatVal) : Bool := isnan r.1 || isnan r.2

/-! ## Basic facts about one call of `loop()` -/

theorem loop_failed_errorCount (pf : FloatVal → String) (temp hum : FloatVal) (c : Nat)
    (h : (isnan temp || isnan hum) = true) :
    (loop pf temp hum c).errorCount = (c + 1) % 256 := by
  simp [loop, h, UINT8_RANGE]

theorem loop_ok_errorCount (pf : FloatVal → String) (temp hum : FloatVal) (c : Nat)
    (h : (isnan temp || isnan hum) = false) :
    (loop pf temp hum c).errorCount = 0 := by
  simp only [loop, h, Bool.false_eq_true, if_false]
  split_ifs <;> omega

theorem observe_loop_failed (pf : FloatVal → String) (temp hum : FloatVal) (c : Nat)
    (h : (isnan temp || isnan hum) = true) :
    observe (loop pf temp hum c).effects =
      [ .log ("Sensor read failed (Error #" ++ printNat ((c + 1) % 256) ++ ")"),
        .render (if (c + 1) % 256 < 3 then
                   ["Sensor Reading...", "Please wait...", "",
                    "Retry: " ++ printNat ((c + 1) % 256) ++ "/3"]
                 else
                   ["SENSOR ERROR!", "", "Check:", "- GND connection", "- VCC (3.3-5V)",
                    "- DATA pin (Pin 2)", "- Pull-up resistor"]),
        .sleep 2000 ] := by
  have h3 : printNat MAX_ERRORS = "3" := by decide
  simp only [loop, h, if_true, h3]
  simp only [UINT8_RANGE, MAX_ERRORS]
  have hs : "/" ++ "3" = "/3" := by decide
  split_ifs with hc
  · simp [observe, Sink.step, Sink.init, String.append_assoc, hs]
  · simp [observe, Sink.step, Sink.init]

theorem observe_loop_ok (pf : FloatVal → String) (temp hum : FloatVal) (c : Nat)
    (h : (isnan temp || isnan hum) = false) :
    observe (loop pf temp hum c).effects =
      (if c > 0 then [Obs.log "Sensor recovered!"] else []) ++
      [ .render ["Temp: " ++ pf temp ++ " C", "Humidity: " ++ pf hum ++ " %", "", "Status: OK"],
        .log ("Temperature: " ++ pf temp ++ " °C " ++ "Humidity: " ++ pf hum ++ " %"),
        .sleep 2000 ] := by
  simp only [loop, h, Bool.false_eq_true, if_false]
  split_ifs with hc
  · simp [observe, Sink.step, Sink.init]
  · simp [observe, Sink.step, Sink.init]

/-- After a run of failed reads the counter holds their number modulo 256. -/
theorem runLoops_failed_errorCount (pf : FloatVal → String) :
    ∀ (rs : List (FloatVal × FloatVal)) (c : Nat), c < 256 →
      (∀ r ∈ rs, failed r = true) →
      (runLoops pf rs c).errorCount = (c + rs.length) % 256 := by
  intro rs
  induction rs with
  | nil =>
    intro c hc _
    simp [runLoops, Nat.mod_eq_of_lt hc]
  | cons r rest ih =>
    intro c hc hall
    obtain ⟨t, h⟩ := r
    have hr : (isnan t || isnan h) = true := by
      have := hall (t, h) (List.mem_cons_self _ _)
      simpa [failed] using this
    have hrest : ∀ r ∈ rest, failed r = true := fun r hr => hall r (List.mem_cons_of_mem _ hr)
    simp only [runLoops, loop_failed_errorCount pf t h c hr, List.length_cons]
    rw [ih ((c + 1) % 256) (Nat.mod_lt _ (by norm_num)) hrest]
    omega

theorem failure_log_ne_recovered (s : String) :
    "Sensor read failed (Error #" ++ s ≠ "Sensor recovered!" := by
  intro h
  have := congrArg String.data h
  simp at this

theorem value_log_ne_recovered (s : String) : "Temperature: " ++ s ≠ "Sensor recovered!" := by
  intro h
  have := congrArg String.data h
  simp at this

theorem failure_log_ne_value_log (s t : String) :
    "Sensor read failed (Error #" ++ s ≠ "Temperature: " ++ t := by
  intro h
  have := congrArg String.data h
  simp at this

/-! ## Threshold boundary -/

/-- Up to the 255th consecutive failure the view follows the threshold: the
retry view with the attempt number for failures 1 and 2, the diagnostic view
from the third failure on. -/
theorem threshold_boundary_upto_255 (pf : FloatVal → String)
    (rs : List (FloatVal × FloatVal)) (temp hum : FloatVal)
    (hrs : ∀ r ∈ rs, failed r = true) (h : (isnan temp || isnan hum) = true)
    (hn : rs.length + 1 ≤ 255) :
    observe (loop pf temp hum (runLoops pf rs 0).errorCount).effects =
      [ .log ("Sensor read failed (Error #" ++ printNat (rs.length + 1) ++ ")"),
        .render (if rs.length + 1 < 3 then
                   ["Sensor Reading...", "Please wait...", "",
                    "Retry: " ++ printNat (rs.length + 1) ++ "/3"]
                 else
                   ["SENSOR ERROR!", "", "Check:", "- GND connection", "- VCC (3.3-5V)",
                    "- DATA pin (Pin 2)", "- Pull-up resistor"]),
        .sleep 2000 ] := by
  rw [observe_loop_failed pf temp hum _ h, runLoops_failed_errorCount pf rs 0 (by norm_num) hrs]
  have e : ((0 + rs.length) % 256 + 1) % 256 = rs.length + 1 := by omega
  rw [e]

/-- C1, at the 256th consecutive failure: after 255 failed polls from
`errorCount = 0` the next failed poll logs error number 0 and renders the retry
view with attempt 0/3, not the diagnostic view. -/
theorem retry_view_at_failure_256 :
    observe (loop printFloat .nan .nan
        (runLoops printFloat (List.replicate 255 (.nan, .nan)) 0).errorCount).effects =
      [ .log "Sensor read failed (Error #0)",
        .render ["Sensor Reading...", "Please wait...", "", "Retry: 0/3"],
        .sleep 2000 ] := by
  have hc : (runLoops printFloat (List.replicate 255 (.nan, .nan)) 0).errorCount = 255 := by
    rw [runLoops_failed_errorCount printFloat _ 0 (by norm_num)]
    · rw [List.length_replicate]
    · intro r hr
      rw [List.eq_of_mem_replicate hr]
      rfl
  rw [hc, observe_loop_failed printFloat .nan .nan 255 rfl]
  decide

/-! ## Counter under failures -/

/-- C2, at N = 256: after 256 consecutive failed polls from `errorCount = 0`
the counter is 0 again, not the cap 255. -/
theorem errorCount_after_256_failures :
    (runLoops printFloat (List.replicate 256 (.nan, .nan)) 0).errorCount = 0 ∧
    (runLoops printFloat (List.replicate 256 (.nan, .nan)) 0).errorCount ≠ min 256 255 := by
  have hc : (runLoops printFloat (List.replicate 256 (.nan, .nan)) 0).errorCount = 0 := by
    rw [runLoops_failed_errorCount printFloat _ 0 (by norm_num)]
    · rw [List.length_replicate]
    · intro r hr
      rw [List.eq_of_mem_replicate hr]
      rfl
  rw [hc]
  exact ⟨rfl, by decide⟩

/-- Below the wrap the counter is the number of consecutive failures. -/
theorem errorCount_counts_failures_upto_255 (pf : FloatVal → String)
    (rs : List (FloatVal × FloatVal)) (hrs : ∀ r ∈ rs, failed r = true)
    (hn : rs.length ≤ 255) :
    (runLoops pf rs 0).errorCount = rs.length := by
  rw [runLoops_failed_errorCount pf rs 0 (by norm_num) hrs]
  omega

/-- C4, at `errorCount = 255`: a failed poll leaves the counter at 0, the
value of the nominal state, and shows the retry view. -/
theorem failure_wraps_to_zero_at_255 :
    (loop printFloat .nan .nan 255).errorCount = 0 ∧
    observe (loop printFloat .nan .nan 255).effects =
      [ .log "Sensor read failed (Error #0)",
        .render ["Sensor Reading...", "Please wait...", "", "Retry: 0/3"],
        .sleep 2000 ] := by
  refine ⟨by rw [loop_failed_errorCount printFloat .nan .nan 255 rfl], ?_⟩
  rw [observe_loop_failed printFloat .nan .nan 255 rfl]
  decide

/-- Below 255 a failed poll never leaves the counter at 0. -/
theorem failure_not_nominal_below_255 (pf : FloatVal → String) (temp hum : FloatVal) (c : Nat)
    (h : (isnan temp || isnan hum) = true) (hc : c < 255) :
    (loop pf temp hum c).errorCount = c + 1 := by
  rw [loop_failed_errorCount pf temp hum c h]
  omega

/-! ## Reset on success -/

/-- C3: a successful poll (both values non-NaN) leaves `errorCount = 0` from
any starting count, and the line "Sensor recovered!" is logged exactly when
the starting count was above 0. -/
theorem reset_on_success (pf : FloatVal → String) (temp hum : FloatVal) (c : Nat)
    (ht : isnan temp = false) (hh : isnan hum = false) :
    (loop pf temp hum c).errorCount = 0 ∧
    (Obs.log "Sensor recovered!" ∈ observe (loop pf temp hum c).effects ↔ c > 0) ∧
    (Effect.serialPrintln "Sensor recovered!" ∈ (loop pf temp hum c).effects ↔ c > 0) := by
  have h : (isnan temp || isnan hum) = false := by simp [ht, hh]
  refine ⟨loop_ok_errorCount pf temp hum c h, ?_, ?_⟩
  · rw [observe_loop_ok pf temp hum c h]
    by_cases hc : c > 0
    · simp [hc]
    · have hne := value_log_ne_recovered
        (pf temp ++ " °C " ++ "Humidity: " ++ pf hum ++ " %")
      simp only [String.append_assoc] at hne ⊢
      simp [hc, Ne.symm hne]
  · simp only [loop, h, Bool.false_eq_true, if_false]
    by_cases hc : c > 0
    · simp [hc]
    · simp [hc]

theorem reset_on_success_witness :
    isnan (.num (mkRat 43 2)) = false ∧ isnan (.num 60) = false ∧
    (loop printFloat (.num (mkRat 43 2)) (.num 60) 4).errorCount = 0 ∧
    (Obs.log "Sensor recovered!" ∈
        observe (loop printFloat (.num (mkRat 43 2)) (.num 60) 4).effects ↔ 4 > 0) ∧
    (Effect.serialPrintln "Sensor recovered!" ∈
        (loop printFloat (.num (mkRat 43 2)) (.num 60) 4).effects ↔ 4 > 0) :=
  ⟨rfl, rfl, reset_on_success printFloat (.num (mkRat 43 2)) (.num 60) 4 rfl rfl⟩

/-! ## Success rendering -/

theorem printFloat_21_5 : printFloat (.num (mkRat 43 2)) = "21.50" := by decide

theorem printFloat_60 : printFloat (.num 60) = "60.00" := by decide

/-- The whole run of the successful read (21.5, 60.0) followed by a failed
read, with the float printing of the Arduino core: the status view of the
first cycle, then the retry view 1/3 alone on the panel. -/
theorem failure_after_reading_repaints_page :
    observe (runLoops printFloat [(.num (mkRat 43 2), .num 60), (.nan, .nan)] 0).effects =
      [ .render ["Temp: 21.50 C", "Humidity: 60.00 %", "", "Status: OK"],
        .log "Temperature: 21.50 °C Humidity: 60.00 %",
        .sleep 2000,
        .log "Sensor read failed (Error #1)",
        .render ["Sensor Reading...", "Please wait...", "", "Retry: 1/3"],
        .sleep 2000 ] := by
  have h0 : (isnan (.num (mkRat 43 2)) || isnan (.num 60)) = false := rfl
  have h1 : (isnan .nan || isnan .nan) = true := rfl
  have e1 : printNat 1 = "1" := by decide
  have e3 : printNat 3 = "3" := by decide
  simp only [runLoops, loop, h0, h1, if_true, Bool.false_eq_true, if_false, UINT8_RANGE,
    MAX_ERRORS, printFloat_21_5, printFloat_60]
  simp [observe, Sink.step, Sink.init, e1, e3]

/-! ## Pacing -/

/-- C8: whatever the counter and the read, one call of `loop()` ends with
`delay(2000)` and makes no other call to `delay`. -/
theorem fixed_pacing (pf : FloatVal → String) (temp hum : FloatVal) (c : Nat) :
    ∃ before : List Effect,
      (loop pf temp hum c).effects = before ++ [.delay 2000] ∧
      (∀ e ∈ before, ∀ ms, e ≠ .delay ms) ∧
      (observe (loop pf temp hum c).effects).count (.sleep 2000) = 1 ∧
      (observe (loop pf temp hum c).effects).getLast? = some (.sleep 2000) ∧
      ∀ ms, Obs.sleep ms ∈ observe (loop pf temp hum c).effects → ms = 2000 := by
  cases h : (isnan temp || isnan hum)
  · refine ⟨(loop pf temp hum c).effects.dropLast, ?_, ?_, ?_, ?_, ?_⟩
    · simp only [loop, h, Bool.false_eq_true, if_false]
      split_ifs <;> simp [List.dropLast]
    · simp only [loop, h, Bool.false_eq_true, if_false]
      split_ifs <;> simp [List.dropLast]
    · rw [observe_loop_ok pf temp hum c h]
      split_ifs <;> simp
    · rw [observe_loop_ok pf temp hum c h]
      split_ifs <;> simp
    · rw [observe_loop_ok pf temp hum c h]
      split_ifs <;> simp
  · refine ⟨(loop pf temp hum c).effects.dropLast, ?_, ?_, ?_, ?_, ?_⟩
    · simp only [loop, h, if_true]
      split_ifs <;> simp [List.dropLast]
    · simp only [loop, h, if_true]
      split_ifs <;> simp [List.dropLast]
    · rw [observe_loop_failed pf temp hum c h]
      simp
    · rw [observe_loop_failed pf temp hum c h]
      simp
    · rw [observe_loop_failed pf temp hum c h]
      simp

/-! ## Classification -/

/-- C9: `loop()` takes the failure branch exactly when the temperature or the
humidity is NaN.  In that case the counter is incremented (as a `uint8_t`),
the line "Sensor read failed (Error #" with the new count and ")" is logged,
and the view shown is the retry or the diagnostic view, without any reading.
Otherwise the counter is 0 afterwards and the status view with the two printed
values is rendered.  The failure line is logged if and only if one of the two
values is NaN. -/
theorem classification (pf : FloatVal → String) (temp hum : FloatVal) (c : Nat) :
    (loop pf temp hum c).errorCount = (if isnan temp || isnan hum then (c + 1) % 256 else 0) ∧
    observe (loop pf temp hum c).effects =
      (if isnan temp || isnan hum then
        [ .log ("Sensor read failed (Error #" ++ printNat ((c + 1) % 256) ++ ")"),
          .render (if (c + 1) % 256 < 3 then
                     ["Sensor Reading...", "Please wait...", "",
                      "Retry: " ++ printNat ((c + 1) % 256) ++ "/3"]
                   else
                     ["SENSOR ERROR!", "", "Check:", "- GND connection", "- VCC (3.3-5V)",
                      "- DATA pin (Pin 2)", "- Pull-up resistor"]),
          .sleep 2000 ]
      else
        (if c > 0 then [Obs.log "Sensor recovered!"] else []) ++
        [ .render ["Temp: " ++ pf temp ++ " C", "Humidity: " ++ pf hum ++ " %", "",
                   "Status: OK"],
          .log ("Temperature: " ++ pf temp ++ " °C " ++ "Humidity: " ++ pf hum ++ " %"),
          .sleep 2000 ]) ∧
    ((∃ n, Obs.log ("Sensor read failed (Error #" ++ printNat n ++ ")") ∈
            observe (loop pf temp hum c).effects) ↔
      (isnan temp = true ∨ isnan hum = true)) := by
  cases h : (isnan temp || isnan hum)
  · refine ⟨?_, ?_, ?_⟩
    · simpa using loop_ok_errorCount pf temp hum c h
    · simpa using observe_loop_ok pf temp hum c h
    · have hno : ¬ (isnan temp = true ∨ isnan hum = true) := by
        simpa [Bool.or_eq_false_iff] using h
      rw [observe_loop_ok pf temp hum c h]
      constructor
      · rintro ⟨n, hn⟩
        exfalso
        have a1 := failure_log_ne_recovered (printNat n ++ ")")
        have a2 := failure_log_ne_value_log (printNat n ++ ")")
          (pf temp ++ " °C " ++ "Humidity: " ++ pf hum ++ " %")
        simp only [String.append_assoc] at a1 a2 hn
        split_ifs at hn <;> simp [a1, a2] at hn
      · intro hyes
        exact absurd hyes hno
  · refine ⟨?_, ?_, ?_⟩
    · simpa using loop_failed_errorCount pf temp hum c h
    · simpa using observe_loop_failed pf temp hum c h
    · have hyes : isnan temp = true ∨ isnan hum = true := by
        simpa [Bool.or_eq_true] using h
      rw [observe_loop_failed pf temp hum c h]
      exact ⟨fun _ => hyes, fun _ => ⟨(c + 1) % 256, by simp⟩⟩

/-! ## Failure views fit the panel -/

end OledDht
